import Mathlib

/-!
Shallow embedding of the Redox in-kernel TCP scheme
(kernel/network/schemes/tcp.rs): the TCP segment codec, the connection
state machine (read, write, client and server handshake) driven by a list
of events from the underlying IP resource, the path operation of the
resource adapter, and the ephemeral port selection of TcpScheme::open.

Machine integers are modelled as Nat with explicit reduction mod 2^16 or
2^32 where the Rust code wraps.  Rust slice expressions that can panic are
modelled through an Option-valued slice function, and the decode result
distinguishes a normal None from a panic.
-/

namespace RedoxTcp

/-- TCP flag constant FIN, from tcp.rs line 35. -/
def TCP_FIN : Nat := 1

/-- TCP flag constant SYN, from tcp.rs line 36. -/
def TCP_SYN : Nat := 1 <<< 1

/-- TCP flag constant RST, from tcp.rs line 37. -/
def TCP_RST : Nat := 1 <<< 2

/-- TCP flag constant PSH, from tcp.rs line 38. -/
def TCP_PSH : Nat := 1 <<< 3

/-- TCP flag constant ACK, from tcp.rs line 39. -/
def TCP_ACK : Nat := 1 <<< 4

/-- Size in bytes of the packed TcpHeader struct: eight fields of sizes
2+2+4+4+2+2+2+2 equal 20 bytes. -/
def tcpHeaderSize : Nat := 20

/-- The packed TcpHeader struct of tcp.rs lines 16 to 27.  Fields hold the
numeric values that the n16 and n32 getters return; src, dst, flags,
window_size, checksum and urgent_pointer are 16-bit, sequence and ack_num
are 32-bit. -/
structure TcpHeader where
  src : Nat
  dst : Nat
  sequence : Nat
  ack_num : Nat
  flags : Nat
  window_size : Nat
  checksum : Nat
  urgent_pointer : Nat
deriving DecidableEq, Repr

/-- A Tcp segment, tcp.rs lines 29 to 33: header, options and payload. -/
structure Tcp where
  header : TcpHeader
  options : List Nat
  data : List Nat
deriving DecidableEq, Repr

/-- Big-endian serialization of a 16-bit value (n16 stores network byte
order; the raw in-memory bytes are most significant first). -/
def bytes16be (v : Nat) : List Nat := [v / 256 % 256, v % 256]

/-- Big-endian serialization of a 32-bit value (n32, network byte order). -/
def bytes32be (v : Nat) : List Nat :=
  [v / 16777216 % 256, v / 65536 % 256, v / 256 % 256, v % 256]

/-- Little-endian serialization of the 16-bit checksum field: the Checksum
struct holds a plain u16 whose raw in-memory layout on x86 is little
endian, and both from_bytes and to_bytes copy raw memory. -/
def bytes16le (v : Nat) : List Nat := [v % 256, v / 256 % 256]

/-- Raw in-memory bytes of a packed TcpHeader, in field order. -/
def headerBytes (h : TcpHeader) : List Nat :=
  bytes16be h.src ++ bytes16be h.dst ++ bytes32be h.sequence ++
  bytes32be h.ack_num ++ bytes16be h.flags ++ bytes16be h.window_size ++
  bytes16le h.checksum ++ bytes16be h.urgent_pointer

/-- Reading the packed TcpHeader from the first 20 bytes of a buffer,
modelling the pointer cast of tcp.rs line 45.  The fallback row is never
reached by from_bytes, whose length guard ensures 20 bytes are present. -/
def decodeHeader : List Nat → TcpHeader
  | b0 :: b1 :: b2 :: b3 :: b4 :: b5 :: b6 :: b7 :: b8 :: b9 ::
    b10 :: b11 :: b12 :: b13 :: b14 :: b15 :: b16 :: b17 :: b18 :: b19 :: _ =>
    { src := b0 * 256 + b1
      dst := b2 * 256 + b3
      sequence := b4 * 16777216 + b5 * 65536 + b6 * 256 + b7
      ack_num := b8 * 16777216 + b9 * 65536 + b10 * 256 + b11
      flags := b12 * 256 + b13
      window_size := b14 * 256 + b15
      checksum := b16 + b17 * 256
      urgent_pointer := b18 * 256 + b19 }
  | _ => ⟨0, 0, 0, 0, 0, 0, 0, 0⟩

/-- Header length extraction of tcp.rs line 46:
(flags and 0xF000) shifted right by 10. -/
def headerLenOf (flags : Nat) : Nat := (flags &&& 0xF000) >>> 10

/-- Rust range slicing bytes[lo..hi]: defined when lo is at most hi and hi
is at most the length, a panic (modelled as none) otherwise. -/
def sliceRange (bytes : List Nat) (lo hi : Nat) : Option (List Nat) :=
  if lo ≤ hi ∧ hi ≤ bytes.length then some ((bytes.drop lo).take (hi - lo))
  else none

/-- Outcome of Tcp::from_bytes: a parsed segment, the None of the short
buffer branch, or a panic raised by an out-of-range slice. -/
inductive DecodeResult where
  | ok (segment : Tcp)
  | noneRes
  | panicked
deriving DecidableEq, Repr

/-- Tcp::from_bytes, tcp.rs lines 42 to 56: if the buffer holds at least a
header, reinterpret the first 20 bytes as the header, derive the header
length from the flags word, slice options as bytes[20..header_len] and
payload as bytes[header_len..len].  Either slice panics when header_len is
below 20 or above the buffer length. -/
def from_bytes (bytes : List Nat) : DecodeResult :=
  if tcpHeaderSize ≤ bytes.length then
    match sliceRange bytes tcpHeaderSize (headerLenOf (decodeHeader bytes).flags),
          sliceRange bytes (headerLenOf (decodeHeader bytes).flags) bytes.length with
    | some opts, some payload => .ok ⟨decodeHeader bytes, opts, payload⟩
    | _, _ => .panicked
  else
    .noneRes

/-- Tcp::to_bytes, tcp.rs lines 59 to 69: raw header bytes, then options,
then payload. -/
def to_bytes (t : Tcp) : List Nat :=
  headerBytes t.header ++ t.options ++ t.data

/-- Ephemeral local port selection of TcpScheme::open, tcp.rs line 478:
(rand() mod 32768 + 32768) cast to u16, as a function of the value rand
returned. -/
def openHostPort (r : Nat) : Nat := (r % 32768 + 32768) % 65536

/-- Modelled from the spec: the Ipv4Addr type of network::common (not under
src), an IPv4 address of four octets. -/
structure Ipv4Addr where
  o0 : Nat
  o1 : Nat
  o2 : Nat
  o3 : Nat
deriving DecidableEq, Repr

/-- Decimal digit characters of n, most significant first; the first
argument is fuel that any value above the digit count satisfies. -/
def decimalDigits : Nat → Nat → List Char
  | 0, _ => []
  | fuel + 1, n =>
    if n < 10 then [Char.ofNat (48 + n)]
    else decimalDigits fuel (n / 10) ++ [Char.ofNat (48 + n % 10)]

/-- Decimal rendering of an unsigned integer, as the format macro does. -/
def natDecimal (n : Nat) : String := ⟨decimalDigits (n + 1) n⟩

/-- Modelled from the spec: Ipv4Addr::to_string of network::common (not
under src) renders the address in dotted decimal. -/
def Ipv4Addr.to_string (ip : Ipv4Addr) : String :=
  natDecimal ip.o0 ++ "." ++ natDecimal ip.o1 ++ "." ++
  natDecimal ip.o2 ++ "." ++ natDecimal ip.o3

/-- The TcpResource of tcp.rs lines 73 to 80.  The boxed IP resource is not
stored here; what it returns from read and write is supplied to each
operation as an event list or an explicit result. -/
structure TcpResource where
  peer_addr : Ipv4Addr
  peer_port : Nat
  host_port : Nat
  sequence : Nat
  acknowledge : Nat
deriving DecidableEq, Repr

/-- The path string TcpResource::path formats, tcp.rs line 100.  The scheme
text in the source is udp followed by a colon. -/
def pathString (r : TcpResource) : String :=
  "udp:" ++ r.peer_addr.to_string ++ ":" ++ natDecimal r.peer_port ++
  "/" ++ natDecimal r.host_port

/-- TcpResource::path, tcp.rs lines 99 to 108: copy the path bytes over the
buffer position by position while both have bytes left, and return the
minimum of the buffer length and the path length. -/
def TcpResource.path (r : TcpResource) (buf : List Nat) : List Nat × Nat :=
  let p := (pathString r).data.map Char.toNat
  (p.take buf.length ++ buf.drop p.length, min buf.length p.length)

/-- Modelled from the spec: the error kinds of system::error used by this
scheme (not under src); only the kind of an error matters to the claims. -/
inductive Error where
  | epipe
  | enoent
  | ioKind (code : Nat)
deriving DecidableEq, Repr

/-- One result of a blocking self.ip.read call: the received datagram bytes
(already truncated to the returned count), or an error from the IP layer. -/
inductive IpEvent where
  | recv (bytes : List Nat)
  | readErr (e : Error)
deriving DecidableEq, Repr

/-- The modulus of wrapping 32-bit arithmetic. -/
def u32Mod : Nat := 4294967296

/-- Construction of an outgoing segment.  Every transmit site of tcp.rs
builds this exact literal with its own flag bits and payload, reading ports
and counters from self.  The checksum written into the header afterwards
(Checksum::compile over raw memory, unsafe blocks of tcp.rs) is not
modelled; no claim depends on the checksum value, which stays 0 here. -/
def mkSegment (r : TcpResource) (bits : Nat) (payload : List Nat) : Tcp :=
  { header :=
    { src := r.host_port
      dst := r.peer_port
      sequence := r.sequence
      ack_num := r.acknowledge
      flags := ((tcpHeaderSize <<< 10) &&& 0xF000) ||| bits
      window_size := 65535
      checksum := 0
      urgent_pointer := 0 }
    options := []
    data := payload }

/-- The ACK segment TcpResource::read transmits, tcp.rs lines 124 to 139,
built from the already updated counters. -/
def readAckSegment (r : TcpResource) : Tcp := mkSegment r TCP_ACK []

/-- The PSH ACK segment TcpResource::write transmits, tcp.rs lines 175 to
189, carrying the caller's buffer as payload. -/
def writeSegment (r : TcpResource) (buf : List Nat) : Tcp :=
  mkSegment r (TCP_PSH ||| TCP_ACK) buf

/-- The SYN segment client_establish transmits, tcp.rs lines 246 to 259. -/
def clientSynSegment (r : TcpResource) : Tcp := mkSegment r TCP_SYN []

/-- The ACK segment client_establish transmits after a SYN ACK reply,
tcp.rs lines 296 to 311, built from the updated counters. -/
def clientAckSegment (r : TcpResource) : Tcp := mkSegment r TCP_ACK []

/-- The SYN ACK segment server_establish transmits, tcp.rs lines 348 to
362. -/
def serverSynAckSegment (r : TcpResource) : Tcp :=
  mkSegment r (TCP_SYN ||| TCP_ACK) []

/-- The FIN ACK segment Drop transmits, tcp.rs lines 418 to 432. -/
def dropSegment (r : TcpResource) : Tcp := mkSegment r (TCP_FIN ||| TCP_ACK) []

/-- Outcome of a read or write call: Ok with a count, Err, a panic from
decode slicing, or still blocked in the loop when the event list ends. -/
inductive OpOutcome where
  | ok (count : Nat)
  | err (e : Error)
  | panicked
  | blocked
deriving DecidableEq, Repr

/-- Result of TcpResource::read: final resource state, segments transmitted
through the IP resource, and the outcome. -/
structure ReadResult where
  resource : TcpResource
  sent : List Tcp
  outcome : OpOutcome
deriving DecidableEq, Repr

/-- The state update of the accepting branch of TcpResource::read, tcp.rs
lines 121 to 123: sequence from the segment's ack_num, acknowledge from the
segment's sequence plus its payload length (wrapping u32 addition). -/
def readAccept (r : TcpResource) (segment : Tcp) : TcpResource :=
  { r with
    sequence := segment.header.ack_num
    acknowledge := (segment.header.sequence + segment.data.length) % u32Mod }

/-- TcpResource::read, tcp.rs lines 110 to 170: loop over IP reads; a
decodable segment whose PSH, SYN, ACK bits equal PSH with ACK and whose
ports match is accepted: update the counters, transmit an ACK built from
the updated state, copy the payload into the buffer while both indices are
in range, and return the copied count.  Anything else is skipped and the
loop continues; an IP read error is returned as is. -/
def tcpRead (r : TcpResource) (events : List IpEvent) (bufLen : Nat) :
    ReadResult :=
  match events with
  | [] => ⟨r, [], .blocked⟩
  | .readErr e :: _ => ⟨r, [], .err e⟩
  | .recv bytes :: rest =>
    match from_bytes bytes with
    | .ok segment =>
      if segment.header.flags &&& (TCP_PSH ||| TCP_SYN ||| TCP_ACK) =
           TCP_PSH ||| TCP_ACK ∧
         segment.header.dst = r.host_port ∧
         segment.header.src = r.peer_port then
        ⟨readAccept r segment, [readAckSegment (readAccept r segment)],
         .ok (min bufLen segment.data.length)⟩
      else tcpRead r rest bufLen
    | .noneRes => tcpRead r rest bufLen
    | .panicked => ⟨r, [], .panicked⟩

/-- Result of TcpResource::write: final resource state and outcome (the
transmitted PSH ACK segment is returned alongside by tcpWrite). -/
structure WriteResult where
  resource : TcpResource
  outcome : OpOutcome
deriving DecidableEq, Repr

/-- The state update of the ACK branch of TcpResource::write, tcp.rs lines
220 to 221: sequence from the reply's ack_num, acknowledge from the reply's
sequence. -/
def writeAccept (r : TcpResource) (segment : Tcp) : TcpResource :=
  { r with
    sequence := segment.header.ack_num
    acknowledge := segment.header.sequence }

/-- The wait loop of TcpResource::write, tcp.rs lines 211 to 231: the first
decodable port-matching reply decides; PSH, SYN, ACK bits equal to ACK give
Ok with the size the IP write returned, any other bits give an EPIPE
error. -/
def writeWait (r : TcpResource) (size : Nat) (events : List IpEvent) :
    WriteResult :=
  match events with
  | [] => ⟨r, .blocked⟩
  | .readErr e :: _ => ⟨r, .err e⟩
  | .recv bytes :: rest =>
    match from_bytes bytes with
    | .ok segment =>
      if segment.header.dst = r.host_port ∧
         segment.header.src = r.peer_port then
        if segment.header.flags &&& (TCP_PSH ||| TCP_SYN ||| TCP_ACK) =
             TCP_ACK then
          ⟨writeAccept r segment, .ok size⟩
        else
          ⟨r, .err .epipe⟩
      else writeWait r size rest
    | .noneRes => writeWait r size rest
    | .panicked => ⟨r, .panicked⟩

/-- TcpResource::write, tcp.rs lines 172 to 235: build and transmit a PSH
ACK segment carrying buf; ipWrite is what the underlying self.ip.write
returned for it.  On Ok, wait for the deciding reply; on Err, propagate. -/
def tcpWrite (r : TcpResource) (buf : List Nat) (ipWrite : Except Error Nat)
    (events : List IpEvent) : Tcp × WriteResult :=
  (writeSegment r buf,
   match ipWrite with
   | .ok size => writeWait r size events
   | .error e => ⟨r, .err e⟩)

/-- Outcome of a handshake: the bool the source returns, a panic, or still
blocked in the loop when the event list ends. -/
inductive EstablishOutcome where
  | success
  | failure
  | panicked
  | blocked
deriving DecidableEq, Repr

/-- Result of a handshake: final resource state, segments transmitted
inside the wait loop, and the outcome. -/
structure EstablishResult where
  resource : TcpResource
  sent : List Tcp
  outcome : EstablishOutcome
deriving DecidableEq, Repr

/-- The state update of the SYN ACK branch of client_establish, tcp.rs
lines 292 to 295: sequence from the reply's ack_num, acknowledge from the
reply's sequence and then incremented (wrapping u32). -/
def clientAccept (r : TcpResource) (segment : Tcp) : TcpResource :=
  { r with
    sequence := segment.header.ack_num
    acknowledge := (segment.header.sequence + 1) % u32Mod }

/-- The wait loop of client_establish, tcp.rs lines 283 to 338: the first
decodable port-matching reply decides; PSH, SYN, ACK bits equal to SYN with
ACK record the counters, transmit an ACK and succeed, any other bits fail;
an IP read error fails. -/
def clientWait (r : TcpResource) (events : List IpEvent) : EstablishResult :=
  match events with
  | [] => ⟨r, [], .blocked⟩
  | .readErr _ :: _ => ⟨r, [], .failure⟩
  | .recv bytes :: rest =>
    match from_bytes bytes with
    | .ok segment =>
      if segment.header.dst = r.host_port ∧
         segment.header.src = r.peer_port then
        if segment.header.flags &&& (TCP_PSH ||| TCP_SYN ||| TCP_ACK) =
             TCP_SYN ||| TCP_ACK then
          ⟨clientAccept r segment,
           [clientAckSegment (clientAccept r segment)], .success⟩
        else
          ⟨r, [], .failure⟩
      else clientWait r rest
    | .noneRes => clientWait r rest
    | .panicked => ⟨r, [], .panicked⟩

/-- TcpResource::client_establish, tcp.rs lines 244 to 342: transmit a SYN
built from the current state, then wait for the deciding reply; an Err from
the SYN transmit fails. -/
def client_establish (r : TcpResource) (ipWrite : Except Error Nat)
    (events : List IpEvent) : Tcp × EstablishResult :=
  (clientSynSegment r,
   match ipWrite with
   | .ok _ => clientWait r events
   | .error _ => ⟨r, [], .failure⟩)

/-- The wait loop of server_establish, tcp.rs lines 386 to 408: the first
decodable port-matching reply decides; PSH, SYN, ACK bits equal to ACK
record the counters and succeed, any other bits fail. -/
def serverWait (r : TcpResource) (events : List IpEvent) : EstablishResult :=
  match events with
  | [] => ⟨r, [], .blocked⟩
  | .readErr _ :: _ => ⟨r, [], .failure⟩
  | .recv bytes :: rest =>
    match from_bytes bytes with
    | .ok segment =>
      if segment.header.dst = r.host_port ∧
         segment.header.src = r.peer_port then
        if segment.header.flags &&& (TCP_PSH ||| TCP_SYN ||| TCP_ACK) =
             TCP_ACK then
          ⟨writeAccept r segment, [], .success⟩
        else
          ⟨r, [], .failure⟩
      else serverWait r rest
    | .noneRes => serverWait r rest
    | .panicked => ⟨r, [], .panicked⟩

/-- TcpResource::server_establish, tcp.rs lines 345 to 412: increment
acknowledge (wrapping u32), transmit a SYN ACK built from the updated
state, then wait for the deciding reply. -/
def server_establish (r : TcpResource) (ipWrite : Except Error Nat)
    (events : List IpEvent) : Tcp × EstablishResult :=
  (serverSynAckSegment { r with acknowledge := (r.acknowledge + 1) % u32Mod },
   match ipWrite with
   | .ok _ =>
     serverWait { r with acknowledge := (r.acknowledge + 1) % u32Mod } events
   | .error _ =>
     ⟨{ r with acknowledge := (r.acknowledge + 1) % u32Mod }, [], .failure⟩)

/-- The Drop impl for TcpResource, tcp.rs lines 415 to 456: the FIN ACK
segment transmitted fire and forget when the resource is destroyed. -/
def dropTransmits (r : TcpResource) : Tcp := dropSegment r

/-- Consistency of a constructed segment with the decoder: its header
length bits decode to 20 bytes and reparsing its encoding leaves the
options empty. -/
def selfFlagsConsistent (segment : Tcp) : Prop :=
  headerLenOf segment.header.flags = 20 ∧
  ∃ u, from_bytes (to_bytes segment) = .ok u ∧ u.options = []

/-- Concrete example resource: peer 203.0.113.5 port 80, local port 4000,
sequence 7, acknowledge 0. -/
def exR : TcpResource := ⟨⟨203, 0, 113, 5⟩, 80, 4000, 7, 0⟩

/-- Concrete example resource for the steady-state send example: sequence
100, about to send ten bytes. -/
def exWriteR : TcpResource := ⟨⟨203, 0, 113, 5⟩, 80, 4000, 100, 0⟩

/-- Wire bytes of a PSH ACK segment (flags word 0x5018) from port 80 to
port 4000, sequence 100, ack_num 555, one payload byte 42. -/
def exPshAckBytes : List Nat :=
  [0, 80, 15, 160, 0, 0, 0, 100, 0, 0, 2, 43, 80, 24, 255, 255, 0, 0, 0, 0, 42]

/-- The segment exPshAckBytes decodes to. -/
def exPshAckSeg : Tcp := ⟨⟨80, 4000, 100, 555, 20504, 65535, 0, 0⟩, [], [42]⟩

/-- Wire bytes of a SYN ACK segment (flags word 0x5012), same ports,
sequence 100, ack_num 555, empty payload. -/
def exSynAckBytes : List Nat :=
  [0, 80, 15, 160, 0, 0, 0, 100, 0, 0, 2, 43, 80, 18, 255, 255, 0, 0, 0, 0]

/-- The segment exSynAckBytes decodes to. -/
def exSynAckSeg : Tcp := ⟨⟨80, 4000, 100, 555, 20498, 65535, 0, 0⟩, [], []⟩

/-- Wire bytes of a segment carrying SYN, ACK and FIN (flags word 0x5013),
same ports, sequence 100, ack_num 555. -/
def exSynAckFinBytes : List Nat :=
  [0, 80, 15, 160, 0, 0, 0, 100, 0, 0, 2, 43, 80, 19, 255, 255, 0, 0, 0, 0]

/-- Wire bytes of a bare ACK segment (flags word 0x5010), same ports,
sequence 9, ack_num 110. -/
def exAckBytes : List Nat :=
  [0, 80, 15, 160, 0, 0, 0, 9, 0, 0, 0, 110, 80, 16, 255, 255, 0, 0, 0, 0]

/-- The segment exAckBytes decodes to. -/
def exAckSeg : Tcp := ⟨⟨80, 4000, 9, 110, 20496, 65535, 0, 0⟩, [], []⟩

/-- Wire bytes of a segment carrying ACK and FIN (flags word 0x5011), same
ports, sequence 9, ack_num 110. -/
def exAckFinBytes : List Nat :=
  [0, 80, 15, 160, 0, 0, 0, 9, 0, 0, 0, 110, 80, 17, 255, 255, 0, 0, 0, 0]

/-- Wire bytes of a bare RST segment (flags word 0x5004), same ports. -/
def exRstBytes : List Nat :=
  [0, 80, 15, 160, 0, 0, 0, 9, 0, 0, 0, 110, 80, 4, 255, 255, 0, 0, 0, 0]

theorem headerBytes_length (h : TcpHeader) : (headerBytes h).length = 20 := by
  simp [headerBytes, bytes16be, bytes32be, bytes16le]

/-- C6: a buffer shorter than 20 bytes decodes to None, and a buffer of
length at least 20 never decodes to None (it yields a segment or panics). -/
theorem from_bytes_short_none (bytes : List Nat) :
    (bytes.length < 20 → from_bytes bytes = .noneRes) ∧
    (20 ≤ bytes.length → from_bytes bytes ≠ .noneRes) := by
  constructor
  · intro h
    unfold from_bytes
    rw [if_neg]
    simp [tcpHeaderSize]
    omega
  · intro h
    unfold from_bytes
    rw [if_pos (by simpa [tcpHeaderSize] using h)]
    split <;> simp

theorem from_bytes_short_none_witness :
    from_bytes (List.replicate 19 0) = .noneRes ∧
    from_bytes (List.replicate 20 0) ≠ .noneRes :=
  ⟨(from_bytes_short_none (List.replicate 19 0)).1 (by decide),
   (from_bytes_short_none (List.replicate 20 0)).2 (by decide)⟩

/-- C7: on a buffer of length at least 20 whose extracted header length is
below 20 or above the buffer length, decode panics in the slicing instead
of returning None. -/
theorem from_bytes_panics (bytes : List Nat) (h20 : 20 ≤ bytes.length)
    (hbad : headerLenOf (decodeHeader bytes).flags < 20 ∨
            bytes.length < headerLenOf (decodeHeader bytes).flags) :
    from_bytes bytes = .panicked := by
  unfold from_bytes
  rw [if_pos (by simpa [tcpHeaderSize] using h20)]
  rcases hbad with hlow | hhigh
  · have hs : sliceRange bytes tcpHeaderSize
        (headerLenOf (decodeHeader bytes).flags) = none := by
      unfold sliceRange
      rw [if_neg]
      simp [tcpHeaderSize]
      omega
    rw [hs]
  · have hs : sliceRange bytes tcpHeaderSize
        (headerLenOf (decodeHeader bytes).flags) = none := by
      unfold sliceRange
      rw [if_neg]
      simp [tcpHeaderSize]
      omega
    rw [hs]

theorem from_bytes_panics_witness :
    20 ≤ (List.replicate 20 (0 : Nat)).length ∧
    from_bytes (List.replicate 20 0) = .panicked :=
  ⟨by decide, from_bytes_panics (List.replicate 20 0) (by decide) (by decide)⟩

theorem sliceRange_eq_some {l : List Nat} {lo hi : Nat} {o : List Nat}
    (h : sliceRange l lo hi = some o) :
    lo ≤ hi ∧ hi ≤ l.length ∧ o = (l.drop lo).take (hi - lo) := by
  unfold sliceRange at h
  split at h
  · rename_i hc
    injection h with h'
    exact ⟨hc.1, hc.2, h'.symm⟩
  · exact absurd h (by simp)

theorem headerBytes_decodeHeader (bytes : List Nat) (h20 : 20 ≤ bytes.length)
    (hb : ∀ b ∈ bytes, b < 256) :
    headerBytes (decodeHeader bytes) = bytes.take 20 := by
  rcases bytes with _ | ⟨b0, _ | ⟨b1, _ | ⟨b2, _ | ⟨b3, _ | ⟨b4, _ | ⟨b5, _ | ⟨b6,
    _ | ⟨b7, _ | ⟨b8, _ | ⟨b9, _ | ⟨b10, _ | ⟨b11, _ | ⟨b12, _ | ⟨b13, _ | ⟨b14,
    _ | ⟨b15, _ | ⟨b16, _ | ⟨b17, _ | ⟨b18, _ | ⟨b19,
    rest⟩⟩⟩⟩⟩⟩⟩⟩⟩⟩⟩⟩⟩⟩⟩⟩⟩⟩⟩⟩ <;>
    simp only [List.length_nil, List.length_cons] at h20 <;> try omega
  simp only [List.mem_cons, forall_eq_or_imp] at hb
  obtain ⟨h0, h1, h2, h3, h4, h5, h6, h7, h8, h9, h10, h11, h12, h13, h14, h15,
    h16, h17, h18, h19, -⟩ := hb
  simp only [headerBytes, decodeHeader, bytes16be, bytes32be, bytes16le,
    List.cons_append, List.nil_append, List.take_succ_cons, List.take_zero,
    List.cons.injEq, and_true]
  omega

/-- C5: on a well-formed byte buffer that decodes to a segment (which forces
the extracted header length to lie between 20 and the buffer length, and the
options length to be header length minus 20), serializing the decoded
segment reproduces the buffer exactly. -/
theorem tcp_encode_decode_roundtrip (bytes : List Nat)
    (hb : ∀ b ∈ bytes, b < 256) (t : Tcp) (h : from_bytes bytes = .ok t) :
    to_bytes t = bytes := by
  unfold from_bytes at h
  split at h
  · rename_i h20
    rcases hs1 : sliceRange bytes tcpHeaderSize
        (headerLenOf (decodeHeader bytes).flags) with _ | opts
    · rw [hs1] at h
      rcases hs2 : sliceRange bytes (headerLenOf (decodeHeader bytes).flags)
          bytes.length with _ | payload <;> rw [hs2] at h <;> exact absurd h (by simp)
    · rw [hs1] at h
      rcases hs2 : sliceRange bytes (headerLenOf (decodeHeader bytes).flags)
          bytes.length with _ | payload
      · rw [hs2] at h
        exact absurd h (by simp)
      · rw [hs2] at h
        injection h with h'
        subst h'
        obtain ⟨hA, hB, rfl⟩ := sliceRange_eq_some hs1
        obtain ⟨-, hD, rfl⟩ := sliceRange_eq_some hs2
        have h20' : 20 ≤ bytes.length := by simpa [tcpHeaderSize] using h20
        simp only [to_bytes]
        rw [headerBytes_decodeHeader bytes h20' hb]
        simp only [tcpHeaderSize] at hA hB ⊢
        have e2 : (bytes.drop (headerLenOf (decodeHeader bytes).flags)).take
            (bytes.length - headerLenOf (decodeHeader bytes).flags) =
            bytes.drop (headerLenOf (decodeHeader bytes).flags) := by
          rw [← List.length_drop, List.take_length]
        have h' : 20 + (headerLenOf (decodeHeader bytes).flags - 20) =
            headerLenOf (decodeHeader bytes).flags := by omega
        have e3 := List.drop_take_append_drop bytes 20
          (headerLenOf (decodeHeader bytes).flags - 20)
        rw [h'] at e3
        rw [e2, List.append_assoc, e3, List.take_append_drop]
  · exact absurd h (by simp)

/-- C8: for every value the random generator returns, the ephemeral local
port chosen by TcpScheme::open lies in [32768, 65536). -/
theorem openHostPort_range (r : Nat) :
    32768 ≤ openHostPort r ∧ openHostPort r < 65536 := by
  unfold openHostPort
  omega

theorem tcp_encode_decode_roundtrip_witness :
    to_bytes exPshAckSeg = exPshAckBytes :=
  tcp_encode_decode_roundtrip exPshAckBytes (by decide) exPshAckSeg (by decide)

/-- C2 (amended): feeding read one decodable segment whose flag bits are
exactly PSH with ACK and whose ports match makes the connection record
sequence = ack_num and acknowledge = segment sequence plus payload length
(wrapping u32), transmit exactly one empty ACK segment whose ack_num is
that new acknowledge value, and return the minimum of the buffer length and
the payload length. -/
theorem tcpRead_psh_ack (r : TcpResource) (bytes : List Nat) (bufLen : Nat)
    (segment : Tcp) (hdec : from_bytes bytes = .ok segment)
    (hflags : segment.header.flags &&& 0xFFF = TCP_PSH ||| TCP_ACK)
    (hdst : segment.header.dst = r.host_port)
    (hsrc : segment.header.src = r.peer_port) :
    tcpRead r [IpEvent.recv bytes] bufLen =
      ⟨readAccept r segment, [readAckSegment (readAccept r segment)],
       .ok (min bufLen segment.data.length)⟩ ∧
    (readAckSegment (readAccept r segment)).data = [] ∧
    (readAckSegment (readAccept r segment)).header.ack_num =
      (segment.header.sequence + segment.data.length) % u32Mod := by
  have hc : (0xFFF : Nat) &&& (TCP_PSH ||| TCP_SYN ||| TCP_ACK) =
      TCP_PSH ||| TCP_SYN ||| TCP_ACK := by decide
  have hmask : segment.header.flags &&& (TCP_PSH ||| TCP_SYN ||| TCP_ACK) =
      TCP_PSH ||| TCP_ACK := by
    calc segment.header.flags &&& (TCP_PSH ||| TCP_SYN ||| TCP_ACK)
        = segment.header.flags &&&
            (0xFFF &&& (TCP_PSH ||| TCP_SYN ||| TCP_ACK)) := by rw [hc]
      _ = (segment.header.flags &&& 0xFFF) &&&
            (TCP_PSH ||| TCP_SYN ||| TCP_ACK) := by rw [Nat.and_assoc]
      _ = (TCP_PSH ||| TCP_ACK) &&& (TCP_PSH ||| TCP_SYN ||| TCP_ACK) := by
            rw [hflags]
      _ = TCP_PSH ||| TCP_ACK := by decide
  refine ⟨?_, rfl, rfl⟩
  simp only [tcpRead, hdec]
  rw [if_pos ⟨hmask, hdst, hsrc⟩]

theorem tcpRead_psh_ack_witness :
    tcpRead exR [IpEvent.recv exPshAckBytes] 100 =
      ⟨readAccept exR exPshAckSeg,
       [readAckSegment (readAccept exR exPshAckSeg)],
       .ok (min 100 exPshAckSeg.data.length)⟩ :=
  (tcpRead_psh_ack exR exPshAckBytes 100 exPshAckSeg (by decide) (by decide)
    (by decide) (by decide)).1

/-- C2 as stated is false at this concrete input: the old acknowledge is 0
and the payload length 1, yet the transmitted ACK carries ack_num 101 (the
segment's sequence 100 plus the payload length), and with a zero length
buffer read returns 0, not the payload length 1. -/
theorem tcpRead_ack_counterexample :
    (tcpRead exR [IpEvent.recv exPshAckBytes] 0).sent.map
        (fun t => t.header.ack_num) = [101] ∧
    exR.acknowledge + exPshAckSeg.data.length = 1 ∧
    exPshAckSeg.data.length = 1 ∧
    (tcpRead exR [IpEvent.recv exPshAckBytes] 0).outcome = OpOutcome.ok 0 := by
  decide

/-- C3 (amended): for the first port-matching decodable reply, the client
handshake inspects only the PSH, SYN and ACK bits: if they equal SYN with
ACK it records sequence = ack_num and acknowledge = segment sequence plus 1
(wrapping u32), transmits an ACK and succeeds; if they differ it fails
immediately with nothing transmitted and no retry. -/
theorem client_establish_reply (r : TcpResource) (n : Nat) (bytes : List Nat)
    (rest : List IpEvent) (segment : Tcp)
    (hdec : from_bytes bytes = .ok segment)
    (hdst : segment.header.dst = r.host_port)
    (hsrc : segment.header.src = r.peer_port) :
    (segment.header.flags &&& (TCP_PSH ||| TCP_SYN ||| TCP_ACK) =
        TCP_SYN ||| TCP_ACK →
      client_establish r (Except.ok n) (IpEvent.recv bytes :: rest) =
        (clientSynSegment r,
         ⟨clientAccept r segment,
          [clientAckSegment (clientAccept r segment)], .success⟩)) ∧
    (segment.header.flags &&& (TCP_PSH ||| TCP_SYN ||| TCP_ACK) ≠
        TCP_SYN ||| TCP_ACK →
      client_establish r (Except.ok n) (IpEvent.recv bytes :: rest) =
        (clientSynSegment r, ⟨r, [], .failure⟩)) := by
  constructor
  · intro hfl
    simp only [client_establish, clientWait, hdec]
    rw [if_pos ⟨hdst, hsrc⟩, if_pos hfl]
  · intro hfl
    simp only [client_establish, clientWait, hdec]
    rw [if_pos ⟨hdst, hsrc⟩, if_neg hfl]

theorem client_establish_reply_witness :
    client_establish exR (Except.ok 20) [IpEvent.recv exSynAckBytes] =
      (clientSynSegment exR,
       ⟨clientAccept exR exSynAckSeg,
        [clientAckSegment (clientAccept exR exSynAckSeg)],
        EstablishOutcome.success⟩) :=
  (client_establish_reply exR 20 exSynAckBytes [] exSynAckSeg (by decide)
    (by decide) (by decide)).1 (by decide)

/-- C3 as stated is false at this concrete input: a port-matching reply
whose flag bits are SYN, ACK and FIN — a flag combination other than
exactly SYN with ACK — still makes the handshake succeed, because the
source masks only the PSH, SYN and ACK bits. -/
theorem client_establish_counterexample :
    (decodeHeader exSynAckFinBytes).flags &&& 0xFFF =
      (TCP_SYN ||| TCP_ACK ||| TCP_FIN) ∧
    (TCP_SYN ||| TCP_ACK ||| TCP_FIN) ≠ (TCP_SYN ||| TCP_ACK) ∧
    ((client_establish exR (Except.ok 20)
        [IpEvent.recv exSynAckFinBytes]).2).outcome =
      EstablishOutcome.success := by
  decide

/-- C4 (amended): after the PSH ACK transmit succeeds, the first
port-matching decodable reply decides on its PSH, SYN and ACK bits alone:
equal to ACK records sequence = ack_num and acknowledge = reply sequence
and returns Ok with the byte count the underlying IP write reported;
different bits yield the EPIPE error. -/
theorem tcpWrite_reply (r : TcpResource) (buf : List Nat) (n : Nat)
    (bytes : List Nat) (rest : List IpEvent) (segment : Tcp)
    (hdec : from_bytes bytes = .ok segment)
    (hdst : segment.header.dst = r.host_port)
    (hsrc : segment.header.src = r.peer_port) :
    (segment.header.flags &&& (TCP_PSH ||| TCP_SYN ||| TCP_ACK) = TCP_ACK →
      tcpWrite r buf (Except.ok n) (IpEvent.recv bytes :: rest) =
        (writeSegment r buf, ⟨writeAccept r segment, .ok n⟩)) ∧
    (segment.header.flags &&& (TCP_PSH ||| TCP_SYN ||| TCP_ACK) ≠ TCP_ACK →
      tcpWrite r buf (Except.ok n) (IpEvent.recv bytes :: rest) =
        (writeSegment r buf, ⟨r, .err Error.epipe⟩)) := by
  constructor
  · intro hfl
    simp only [tcpWrite, writeWait, hdec]
    rw [if_pos ⟨hdst, hsrc⟩, if_pos hfl]
  · intro hfl
    simp only [tcpWrite, writeWait, hdec]
    rw [if_pos ⟨hdst, hsrc⟩, if_neg hfl]

theorem tcpWrite_reply_witness :
    tcpWrite exWriteR [1, 2, 3, 4, 5, 6, 7, 8, 9, 10] (Except.ok 30)
        [IpEvent.recv exAckBytes] =
      (writeSegment exWriteR [1, 2, 3, 4, 5, 6, 7, 8, 9, 10],
       ⟨writeAccept exWriteR exAckSeg, OpOutcome.ok 30⟩) ∧
    (writeAccept exWriteR exAckSeg).sequence = 110 :=
  ⟨(tcpWrite_reply exWriteR [1, 2, 3, 4, 5, 6, 7, 8, 9, 10] 30 exAckBytes []
      exAckSeg (by decide) (by decide) (by decide)).1 (by decide), by decide⟩

/-- C4 as stated is false at this concrete input: a port-matching reply
carrying ACK and FIN — flags other than exactly ACK — still yields Ok with
the byte count instead of the broken pipe error, because the source masks
only the PSH, SYN and ACK bits. -/
theorem tcpWrite_epipe_counterexample :
    (decodeHeader exAckFinBytes).flags &&& 0xFFF = (TCP_ACK ||| TCP_FIN) ∧
    (TCP_ACK ||| TCP_FIN) ≠ TCP_ACK ∧
    ((tcpWrite exR [1, 2, 3] (Except.ok 23)
        [IpEvent.recv exAckFinBytes]).2).outcome = OpOutcome.ok 23 := by
  decide

theorem writeWait_epipe_resource (r : TcpResource) (size : Nat)
    (events : List IpEvent)
    (h : (writeWait r size events).outcome = .err Error.epipe) :
    (writeWait r size events).resource = r := by
  induction events with
  | nil => simp [writeWait] at h
  | cons ev rest ih =>
    cases ev with
    | readErr e => rfl
    | recv bytes =>
      simp only [writeWait] at h ⊢
      cases hfb : from_bytes bytes with
      | ok segment =>
        simp only [hfb] at h ⊢
        by_cases hport : segment.header.dst = r.host_port ∧
            segment.header.src = r.peer_port
        · rw [if_pos hport] at h ⊢
          by_cases hfl : segment.header.flags &&&
              (TCP_PSH ||| TCP_SYN ||| TCP_ACK) = TCP_ACK
          · rw [if_pos hfl] at h
            simp at h
          · rw [if_neg hfl]
        · rw [if_neg hport] at h ⊢
          exact ih h
      | noneRes =>
        simp only [hfb] at h ⊢
        exact ih h
      | panicked =>
        simp only [hfb] at h
        simp at h

/-- C9: whenever write ends in the broken pipe error — the reply's PSH, SYN
and ACK bits differ from ACK, or the underlying resource itself reported
EPIPE — the connection's sequence and acknowledge counters are unchanged
from before the call, even though the outgoing segment was transmitted. -/
theorem tcpWrite_epipe_state_unchanged (r : TcpResource) (buf : List Nat)
    (ipWrite : Except Error Nat) (events : List IpEvent)
    (h : ((tcpWrite r buf ipWrite events).2).outcome = .err Error.epipe) :
    ((tcpWrite r buf ipWrite events).2).resource = r := by
  cases ipWrite with
  | ok size => exact writeWait_epipe_resource r size events h
  | error e => rfl

theorem tcpWrite_epipe_state_unchanged_witness :
    ((tcpWrite exR [1, 2, 3] (Except.ok 23)
        [IpEvent.recv exRstBytes]).2).resource = exR :=
  tcpWrite_epipe_state_unchanged exR [1, 2, 3] (Except.ok 23)
    [IpEvent.recv exRstBytes] (by decide)

theorem decodeHeader_headerBytes_append (h : TcpHeader) (tail : List Nat) :
    (decodeHeader (headerBytes h ++ tail)).flags = h.flags % 65536 := by
  simp only [headerBytes, bytes16be, bytes32be, bytes16le, List.cons_append,
    List.nil_append, decodeHeader]
  omega

theorem from_bytes_to_bytes_emptyOptions (t : Tcp) (hopt : t.options = [])
    (hflags : headerLenOf (t.header.flags % 65536) = 20) :
    from_bytes (to_bytes t) = .ok ⟨decodeHeader (to_bytes t), [], t.data⟩ := by
  have htb : to_bytes t = headerBytes t.header ++ t.data := by
    simp [to_bytes, hopt]
  have hlen : (to_bytes t).length = 20 + t.data.length := by
    rw [htb]
    simp [headerBytes_length]
  have hHL : headerLenOf (decodeHeader (to_bytes t)).flags = 20 := by
    rw [htb, decodeHeader_headerBytes_append]
    exact hflags
  have hs1 : sliceRange (to_bytes t) tcpHeaderSize 20 = some [] := by
    unfold sliceRange
    rw [if_pos ⟨by simp [tcpHeaderSize], by omega⟩]
    simp [tcpHeaderSize]
  have hs2 : sliceRange (to_bytes t) 20 (to_bytes t).length = some t.data := by
    unfold sliceRange
    rw [if_pos ⟨by omega, le_refl _⟩]
    congr 1
    rw [hlen, htb, ← headerBytes_length t.header, List.drop_left,
      Nat.add_sub_cancel_left]
    exact List.take_length t.data
  unfold from_bytes
  rw [if_pos (show tcpHeaderSize ≤ (to_bytes t).length by
        simp [tcpHeaderSize, hlen]),
    hHL, hs1, hs2]

theorem selfFlagsConsistent_mkSegment (r : TcpResource) (bits : Nat)
    (payload : List Nat)
    (h1 : headerLenOf (((tcpHeaderSize <<< 10) &&& 0xF000) ||| bits) = 20)
    (h2 : headerLenOf ((((tcpHeaderSize <<< 10) &&& 0xF000) ||| bits)
            % 65536) = 20) :
    selfFlagsConsistent (mkSegment r bits payload) :=
  ⟨h1, ⟨⟨decodeHeader (to_bytes (mkSegment r bits payload)), [], payload⟩,
    from_bytes_to_bytes_emptyOptions (mkSegment r bits payload) rfl h2, rfl⟩⟩

/-- C10: every segment the implementation itself constructs and transmits —
the client SYN, the server SYN ACK, the read and client handshake ACKs, the
write PSH ACK and the drop FIN ACK — carries the header length bits 20
shifted left by 10 masked with 0xF000, so the decoder recovers header
length 20 and an empty options vector from its encoding. -/
theorem transmitted_segments_consistent (r : TcpResource) (buf : List Nat) :
    selfFlagsConsistent (clientSynSegment r) ∧
    selfFlagsConsistent (serverSynAckSegment r) ∧
    selfFlagsConsistent (readAckSegment r) ∧
    selfFlagsConsistent (clientAckSegment r) ∧
    selfFlagsConsistent (writeSegment r buf) ∧
    selfFlagsConsistent (dropSegment r) :=
  ⟨selfFlagsConsistent_mkSegment r TCP_SYN [] (by decide) (by decide),
   selfFlagsConsistent_mkSegment r (TCP_SYN ||| TCP_ACK) [] (by decide)
     (by decide),
   selfFlagsConsistent_mkSegment r TCP_ACK [] (by decide) (by decide),
   selfFlagsConsistent_mkSegment r TCP_ACK [] (by decide) (by decide),
   selfFlagsConsistent_mkSegment r (TCP_PSH ||| TCP_ACK) buf (by decide)
     (by decide),
   selfFlagsConsistent_mkSegment r (TCP_FIN ||| TCP_ACK) [] (by decide)
     (by decide)⟩

/-- C1: the claim fails on the code.  At peer 203.0.113.5 port 80 with
local port 4000 and a 23 byte buffer, the path operation writes the udp
scheme text — udp:203.0.113.5:80/4000 — instead of the tcp scheme text the
spec states, while returning the minimum of buffer and path length. -/
theorem path_scheme_text :
    pathString exR = "udp:203.0.113.5:80/4000" ∧
    pathString exR ≠ "tcp:203.0.113.5:80/4000" ∧
    TcpResource.path exR (List.replicate 23 0) =
      ("udp:203.0.113.5:80/4000".data.map Char.toNat, 23) := by
  refine ⟨?_, ?_, ?_⟩ <;> decide

end RedoxTcp
